import Mathlib

/-!
Formal model of the maternal-health RAG chat backend (src/main2.py).

The request pipeline of `send_message`, the emergency keyword classifier
`is_emergency`, and the session CRUD handlers (`get_chat`,
`update_chat_title`, `delete_chat`, `new_chat`) are embedded as pure Lean
functions.  The MongoDB collection is modelled as an map (list of key-document pairs) from
identifier strings to sessions; the FAISS retriever and the OpenAI chat
model are opaque external services, modelled as oracle functions, and every
call the pipeline makes to them is recorded in an event trace.  Python
exceptions are modelled with `Except`: a raised `HTTPException` becomes
`PyErr.httpException`, while an exception that no handler catches (and that
FastAPI therefore turns into a 500 response) becomes `PyErr.uncaught`.
-/

/-- ASCII model of Python `str.lower` on a single character. -/
def lowerChar : Char → Char
  | 'A' => 'a' | 'B' => 'b' | 'C' => 'c' | 'D' => 'd' | 'E' => 'e'
  | 'F' => 'f' | 'G' => 'g' | 'H' => 'h' | 'I' => 'i' | 'J' => 'j'
  | 'K' => 'k' | 'L' => 'l' | 'M' => 'm' | 'N' => 'n' | 'O' => 'o'
  | 'P' => 'p' | 'Q' => 'q' | 'R' => 'r' | 'S' => 's' | 'T' => 't'
  | 'U' => 'u' | 'V' => 'v' | 'W' => 'w' | 'X' => 'x' | 'Y' => 'y'
  | 'Z' => 'z'
  | c => c

/-- Model of Python `str.lower()` (`q.lower()` in `is_emergency` and
`send_message`). -/
def pyLower (s : String) : String := ⟨s.data.map lowerChar⟩

/-- `pfx n l` holds when the character list `n` is an initial segment of
`l`; helper for the substring test below. -/
def pfx : List Char → List Char → Bool
  | [], _ => true
  | _ :: _, [] => false
  | a :: as, b :: bs => (a == b) && pfx as bs

/-- `hasSub hay needle`: does `needle` occur contiguously inside `hay`?
Model of Python `needle in hay` on strings. -/
def hasSub : List Char → List Char → Bool
  | [], n => pfx n []
  | h :: t, n => pfx n (h :: t) || hasSub t n

/-- String-level wrapper of `hasSub`. -/
def hasSubstr (hay needle : String) : Bool := hasSub hay.data needle.data

/-- Model of Python `str.strip()` on the character list: drop whitespace
from both ends. -/
def stripList (l : List Char) : List Char :=
  ((l.dropWhile Char.isWhitespace).reverse.dropWhile Char.isWhitespace).reverse

/-- Model of Python `str.strip()` (`u.query.strip()` in `send_message`). -/
def pyStrip (s : String) : String := ⟨stripList s.data⟩

/-- One chat message, as stored in the `messages` array of a chat
document: `{"role": ..., "text": ...}`. -/
structure Message where
  role : String
  text : String
  deriving DecidableEq

/-- One chat document of the `chats` collection: title, creation time
(modelled as a natural number), and the ordered message log. -/
structure ChatSession where
  title : String
  created_at : Nat
  messages : List Message
  deriving DecidableEq

/-- The `chats` MongoDB collection, modelled as an map (list of key-document pairs) from
object-id strings to chat documents. -/
abbrev ChatDB := List (String × ChatSession)

/-- Model of `chats.find_one({"_id": oid})`: the first document whose key
matches. -/
def lookupAL : ChatDB → String → Option ChatSession
  | [], _ => none
  | e :: t, k => if e.1 = k then some e.2 else lookupAL t k

/-- Model of `chats.update_one({"_id": oid}, {"$push": {"messages": m}})`:
append `m` to the message log of the first matching document; a silent
no-op when no document matches. -/
def pushMessage : ChatDB → String → Message → ChatDB
  | [], _, _ => []
  | e :: t, k, m =>
    if e.1 = k then (e.1, { e.2 with messages := e.2.messages ++ [m] }) :: t
    else e :: pushMessage t k m

/-- Model of `chats.update_one({"_id": oid}, {"$set": {"title": t}})`. -/
def setTitle : ChatDB → String → String → ChatDB
  | [], _, _ => []
  | e :: t, k, ti =>
    if e.1 = k then (e.1, { e.2 with title := ti }) :: t
    else e :: setTitle t k ti

/-- Model of `chats.delete_one({"_id": oid})`: remove the first matching
document, if any. -/
def eraseFirst : ChatDB → String → ChatDB
  | [], _ => []
  | e :: t, k => if e.1 = k then t else e :: eraseFirst t k

/-- A retrieved document chunk (`d.page_content` is the only field the
pipeline reads). -/
structure Doc where
  page_content : String
  deriving DecidableEq

/-- The input of one call to the hosted chat model: either the structured
`qa_prompt.format_messages(context=..., question=...)` message pair, or the
plain fallback prompt string. -/
inductive LlmInput where
  | chatMessages (system : String) (human : String)
  | rawPrompt (p : String)
  deriving DecidableEq

/-- An external-service call made by the pipeline: `retriever.invoke(q)` or
`llm.invoke(...)`. -/
inductive Event where
  | retrieveCall (q : String)
  | llmCall (inp : LlmInput)
  deriving DecidableEq

/-- How a handler fails: `httpException` models a raised
`fastapi.HTTPException` (a deliberate client-error response), `uncaught`
models a Python exception that no handler catches, which FastAPI converts
into a 500 Internal Server Error. -/
inductive PyErr where
  | httpException (status : Nat) (detail : String)
  | uncaught (exc : String)
  deriving DecidableEq

/-- The opaque external services: the FAISS retriever and the OpenAI chat
model.  An `Except.error` models the call raising an exception. -/
structure Oracles where
  retrieve : String → Except String (List Doc)
  llm : LlmInput → Except String String

deriving instance DecidableEq for Except

/-- Result of one `send_message` request: the HTTP outcome (the `bot`
answer, or an error), the collection after the request, and the trace of
external-service calls made. -/
structure SendOut where
  response : Except PyErr String
  state : ChatDB
  events : List Event
  deriving DecidableEq

/-- The `EMERGENCY_KEYWORDS` list. -/
def EMERGENCY_KEYWORDS : List String :=
  ["heavy bleeding", "severe pain", "unconscious",
   "seizure", "cannot breathe", "emergency", "miscarriage"]

/-- `is_emergency(q)`: any emergency keyword occurs in `q.lower()`. -/
def is_emergency (q : String) : Bool :=
  EMERGENCY_KEYWORDS.any (fun k => hasSubstr (pyLower q) k)

/-- The fixed safety-referral message of the emergency branch. -/
def SAFETY_MESSAGE : String :=
  "This may be a medical emergency. Please seek immediate medical care or consult a healthcare professional."

/-- The fixed apology answer produced when the retrieval/model call
raises. -/
def APOLOGY_MESSAGE : String :=
  "Sorry, I couldn't process your question right now. Please try again."

/-- The system message of `qa_prompt` (the adjacent string literals of the
source, concatenated). -/
def systemInstruction : String :=
  "You are an AI assistant specialized in maternal health education. " ++
  "Provide general, educational information only. " ++
  " If the answer is partially available across multiple documents, you MAY summarize and combine information logically." ++
  "If the answer is not clearly stated in the documents, provide a GENERAL EDUCATIONAL explanation and clearly mention that it is general information." ++
  " Do NOT provide diagnosis, treatment, prescriptions, or emergency medical advice." ++
  " Do NOT invent facts that contradict the documents." ++
  "Do NOT give diagnosis, treatment, or emergency instructions. " ++
  "If information is missing, give general educational guidance."

/-- The human message of `qa_prompt` with `context` and `question`
substituted. -/
def qaHumanMessage (context question : String) : String :=
  "Context:\n" ++ context ++ "\n\nQuestion:\n" ++ question

/-- Is `c` a hexadecimal digit? -/
def isHexChar (c : Char) : Bool :=
  c.isDigit || ('a' ≤ c && c ≤ 'f') || ('A' ≤ c && c ≤ 'F')

/-- Model of `bson.ObjectId(chat_id)` on a string argument: succeeds
exactly on 24-character hexadecimal strings; the resulting id compares by
its byte value, modelled as the lower-cased hex string.  `none` models the
constructor raising `InvalidId`. -/
def objectIdParse (s : String) : Option String :=
  if s.data.length = 24 ∧ s.data.all isHexChar = true then some (pyLower s)
  else none

/-- The fresh chat document inserted by `chats.insert_one({...})`. -/
def newChatDoc (now : Nat) : ChatSession :=
  { title := "New Chat", created_at := now, messages := [] }

/-- The `POST /chat/new` handler: insert a fresh session (with the
generated id `freshId`) and return its id. -/
def new_chat (freshId : String) (now : Nat) (st : ChatDB) : String × ChatDB :=
  (freshId, st ++ [(freshId, newChatDoc now)])

/-- The answer computation of `send_message` (emergency check, retrieval,
prompt choice, model call, exception fallback), together with the trace of
external calls it makes. -/
def answerFor (o : Oracles) (query : String) : String × List Event :=
  if is_emergency query && !(hasSubstr (pyLower query) "what") then
    (SAFETY_MESSAGE, [])
  else
    match o.retrieve query with
    | Except.error _ => (APOLOGY_MESSAGE, [Event.retrieveCall query])
    | Except.ok docs =>
      let context := String.intercalate "\n\n" (docs.map Doc.page_content)
      if pyStrip context ≠ "" then
        let inp := LlmInput.chatMessages systemInstruction (qaHumanMessage context query)
        match o.llm inp with
        | Except.ok content => (content, [Event.retrieveCall query, Event.llmCall inp])
        | Except.error _ => (APOLOGY_MESSAGE, [Event.retrieveCall query, Event.llmCall inp])
      else
        let inp := LlmInput.rawPrompt ("Provide general educational information about: " ++ query)
        match o.llm inp with
        | Except.ok content => (content, [Event.retrieveCall query, Event.llmCall inp])
        | Except.error _ => (APOLOGY_MESSAGE, [Event.retrieveCall query, Event.llmCall inp])

/-- The tail of `send_message` once the target id `oid` is known: push the
user message, compute the answer, push the assistant message, and return
`{"bot": answer}`. -/
def send_with_oid (o : Oracles) (oid : String) (query : String) (st1 : ChatDB) : SendOut :=
  let st2 := pushMessage st1 oid { role := "user", text := query }
  let ae := answerFor o query
  { response := Except.ok ae.1,
    state := pushMessage st2 oid { role := "assistant", text := ae.1 },
    events := ae.2 }

/-- `send_message` after `query = u.query.strip()`: resolve or create the
chat id, then run the pipeline.  `freshId` is the id `insert_one` would
generate, `now` the current time. -/
def send_pipeline (o : Oracles) (freshId : String) (now : Nat)
    (chat_id : String) (query : String) (st : ChatDB) : SendOut :=
  if chat_id = "" ∨ chat_id = "null" ∨ chat_id = "undefined" then
    send_with_oid o freshId query (st ++ [(freshId, newChatDoc now)])
  else
    match objectIdParse chat_id with
    | none =>
      { response := Except.error (PyErr.httpException 400 "Invalid chat ID"),
        state := st, events := [] }
    | some oid => send_with_oid o oid query st

/-- The `POST /chat/{chat_id}/send` handler. -/
def send_message (o : Oracles) (freshId : String) (now : Nat)
    (chat_id : String) (rawQuery : String) (st : ChatDB) : SendOut :=
  send_pipeline o freshId now chat_id (pyStrip rawQuery) st

/-- The `GET /chat/{chat_id}` handler: `ObjectId(chat_id)` is unguarded,
so a malformed id raises `InvalidId` uncaught; a missing document makes
`chat["_id"] = ...` raise `TypeError` uncaught. -/
def get_chat (chat_id : String) (st : ChatDB) : Except PyErr ChatSession :=
  match objectIdParse chat_id with
  | none => Except.error (PyErr.uncaught "InvalidId")
  | some oid =>
    match lookupAL st oid with
    | none => Except.error (PyErr.uncaught "TypeError")
    | some chat => Except.ok chat

/-- The `PUT /chat/{chat_id}/title` handler: unguarded `ObjectId`; on
success returns `{"status": "updated"}` and the updated collection. -/
def update_chat_title (chat_id : String) (title : String) (st : ChatDB) :
    Except PyErr (String × ChatDB) :=
  match objectIdParse chat_id with
  | none => Except.error (PyErr.uncaught "InvalidId")
  | some oid => Except.ok ("updated", setTitle st oid title)

/-- The `DELETE /chat/{chat_id}` handler: unguarded `ObjectId`; on success
returns `{"status": "deleted"}` and the updated collection. -/
def delete_chat (chat_id : String) (st : ChatDB) : Except PyErr (String × ChatDB) :=
  match objectIdParse chat_id with
  | none => Except.error (PyErr.uncaught "InvalidId")
  | some oid => Except.ok ("deleted", eraseFirst st oid)

/-- Does the non-emergency path's external-call sequence fail?  True when
`retriever.invoke` raises, or when it succeeds and the single `llm.invoke`
call the pipeline then makes (structured or fallback, by the same context
test as the source) raises. -/
def pipelineCallFails (o : Oracles) (query : String) : Bool :=
  match o.retrieve query with
  | Except.error _ => true
  | Except.ok docs =>
    let context := String.intercalate "\n\n" (docs.map Doc.page_content)
    let inp :=
      if pyStrip context ≠ "" then
        LlmInput.chatMessages systemInstruction (qaHumanMessage context query)
      else
        LlmInput.rawPrompt ("Provide general educational information about: " ++ query)
    match o.llm inp with
    | Except.error _ => true
    | Except.ok _ => false

/-- `pfx n l` holds exactly when `l` extends `n`. -/
theorem pfx_iff (n : List Char) : ∀ l, pfx n l = true ↔ ∃ t, l = n ++ t := by
  induction n with
  | nil => intro l; simp [pfx]
  | cons a as ih =>
    intro l
    cases l with
    | nil => simp [pfx]
    | cons b bs =>
      simp only [pfx, Bool.and_eq_true, beq_iff_eq, ih, List.cons_append,
        List.cons.injEq]
      constructor
      · rintro ⟨rfl, t, rfl⟩
        exact ⟨t, rfl, rfl⟩
      · rintro ⟨t, rfl, rfl⟩
        exact ⟨rfl, t, rfl⟩

/-- `hasSub l n` holds exactly when `n` occurs contiguously inside `l`. -/
theorem hasSub_iff (n : List Char) : ∀ l, hasSub l n = true ↔ ∃ a b, l = a ++ (n ++ b) := by
  intro l
  induction l with
  | nil =>
    simp only [hasSub, pfx_iff]
    constructor
    · rintro ⟨t, ht⟩
      exact ⟨[], t, ht⟩
    · rintro ⟨a, b, hab⟩
      rcases List.append_eq_nil.mp hab.symm with ⟨rfl, h2⟩
      exact ⟨b, by simpa using hab⟩
  | cons h t ih =>
    simp only [hasSub, Bool.or_eq_true, pfx_iff, ih]
    constructor
    · rintro (⟨b, hb⟩ | ⟨a, b, hab⟩)
      · exact ⟨[], b, by simpa using hb⟩
      · exact ⟨h :: a, b, by simp [hab]⟩
    · rintro ⟨a, b, hab⟩
      cases a with
      | nil => exact Or.inl ⟨b, by simpa using hab⟩
      | cons x a' =>
        rw [List.cons_append] at hab
        injection hab with h1 h2
        exact Or.inr ⟨a', b, h2⟩

/-- Every list is its `dropWhile` preceded by a block of elements
satisfying the predicate. -/
theorem dropWhile_decomp {α : Type} (p : α → Bool) (l : List α) :
    ∃ a, (∀ c ∈ a, p c = true) ∧ l = a ++ l.dropWhile p := by
  induction l with
  | nil => exact ⟨[], by simp, rfl⟩
  | cons x t ih =>
    by_cases hx : p x = true
    · obtain ⟨a, ha, he⟩ := ih
      refine ⟨x :: a, ?_, ?_⟩
      · intro c hc
        rcases List.mem_cons.mp hc with rfl | hc
        · exact hx
        · exact ha c hc
      · simp only [List.dropWhile_cons, hx, if_true, List.cons_append]
        exact congrArg (x :: ·) he
    · refine ⟨[], by simp, ?_⟩
      simp [List.dropWhile_cons, hx]

/-- `dropWhile` never eats past an element falsifying the predicate. -/
theorem dropWhile_keep {α : Type} (p : α → Bool) (x : α) (hx : p x = false) :
    ∀ (a r : List α), ∃ a2, (a ++ x :: r).dropWhile p = a2 ++ x :: r := by
  intro a r
  induction a with
  | nil => exact ⟨[], by simp [List.dropWhile_cons, hx]⟩
  | cons y a' ih =>
    by_cases hy : p y = true
    · obtain ⟨a2, ha⟩ := ih
      exact ⟨a2, by simp [List.dropWhile_cons, hy, ha]⟩
    · exact ⟨y :: a', by simp [List.dropWhile_cons, hy]⟩

/-- A list is its stripped core surrounded by two (whitespace) blocks. -/
theorem strip_decomp (l : List Char) : ∃ a b, l = a ++ (stripList l ++ b) := by
  obtain ⟨a, _, ha⟩ := dropWhile_decomp Char.isWhitespace l
  obtain ⟨b, _, hb⟩ :=
    dropWhile_decomp Char.isWhitespace (l.dropWhile Char.isWhitespace).reverse
  refine ⟨a, b.reverse, ?_⟩
  have hm : l.dropWhile Char.isWhitespace = stripList l ++ b.reverse := by
    have h2 := congrArg List.reverse hb
    simpa [stripList, List.reverse_append] using h2
  rw [hm] at ha
  exact ha

/-- Occurrence inside the stripped string gives occurrence in the original
string. -/
theorem hasSub_strip_mono (l n : List Char)
    (h : hasSub (stripList l) n = true) : hasSub l n = true := by
  obtain ⟨a, b, hab⟩ := strip_decomp l
  rw [hasSub_iff] at h ⊢
  obtain ⟨x, y, hxy⟩ := h
  exact ⟨a ++ x, y ++ b, by rw [hab, hxy]; simp [List.append_assoc]⟩

/-- The head of an optional character exists and is not whitespace. -/
def headNonWs : Option Char → Bool
  | none => false
  | some c => !c.isWhitespace

/-- A substring whose first and last characters are not whitespace
survives stripping of the surrounding string. -/
theorem hasSub_strip_boundary (l n : List Char)
    (h : hasSub l n = true)
    (hh : headNonWs n.head? = true)
    (hl : headNonWs n.reverse.head? = true) :
    hasSub (stripList l) n = true := by
  cases n with
  | nil => simp [headNonWs] at hh
  | cons c n' =>
    have hc : c.isWhitespace = false := by
      simpa [headNonWs] using hh
    rw [hasSub_iff] at h
    obtain ⟨a, b, hab⟩ := h
    obtain ⟨a2, ha2⟩ := dropWhile_keep Char.isWhitespace c hc a (n' ++ b)
    have hstep1 : l.dropWhile Char.isWhitespace = a2 ++ ((c :: n') ++ b) := by
      rw [hab]
      simpa using ha2
    cases hnr : (c :: n').reverse with
    | nil => exact absurd hnr (by simp)
    | cons d rest =>
      have hd : d.isWhitespace = false := by
        rw [hnr] at hl
        simpa [headNonWs] using hl
      obtain ⟨b2, hb2⟩ := dropWhile_keep Char.isWhitespace d hd b.reverse (rest ++ a2.reverse)
      have hrev0 : (l.dropWhile Char.isWhitespace).reverse =
          b.reverse ++ ((c :: n').reverse ++ a2.reverse) := by
        rw [hstep1]
        simp [List.reverse_append, List.append_assoc]
      have hrev : (l.dropWhile Char.isWhitespace).reverse =
          b.reverse ++ (d :: (rest ++ a2.reverse)) := by
        rw [hnr] at hrev0
        simpa [List.append_assoc] using hrev0
      have hstep2 : (l.dropWhile Char.isWhitespace).reverse.dropWhile Char.isWhitespace =
          b2 ++ (d :: (rest ++ a2.reverse)) := by
        rw [hrev, hb2]
      have h2 : rest.reverse ++ [d] = c :: n' := by
        have h3 := congrArg List.reverse hnr
        simpa using h3.symm
      have hfinal : stripList l = a2 ++ ((c :: n') ++ b2.reverse) := by
        unfold stripList
        rw [hstep2]
        have hx : (b2 ++ (d :: (rest ++ a2.reverse))).reverse
            = a2 ++ ((rest.reverse ++ [d]) ++ b2.reverse) := by
          simp [List.reverse_append, List.append_assoc]
        rw [hx, h2]
      rw [hasSub_iff]
      exact ⟨a2, b2.reverse, hfinal⟩

/-- Lower-casing a character does not change whether it is whitespace. -/
theorem lowerChar_ws (c : Char) : (lowerChar c).isWhitespace = c.isWhitespace := by
  unfold lowerChar
  split <;> rfl

/-- `dropWhile isWhitespace` commutes with character-wise lower-casing. -/
theorem dropWhile_lower (l : List Char) :
    (l.map lowerChar).dropWhile Char.isWhitespace =
      (l.dropWhile Char.isWhitespace).map lowerChar := by
  induction l with
  | nil => rfl
  | cons c t ih =>
    simp only [List.map_cons, List.dropWhile_cons, lowerChar_ws]
    by_cases hc : c.isWhitespace = true
    · simp [hc, ih]
    · simp [hc]

/-- `stripList` commutes with character-wise lower-casing. -/
theorem stripList_lower (l : List Char) :
    stripList (l.map lowerChar) = (stripList l).map lowerChar := by
  unfold stripList
  rw [dropWhile_lower, ← List.map_reverse, dropWhile_lower, ← List.map_reverse]

/-- `str.lower()` and `str.strip()` commute. -/
theorem pyLower_pyStrip (s : String) : pyLower (pyStrip s) = pyStrip (pyLower s) := by
  simp only [pyLower, pyStrip]
  exact congrArg String.mk (stripList_lower s.data).symm

/-- A keyword whose first and last characters are not whitespace still
occurs in the lower-cased stripped query when it occurs in the lower-cased
query. -/
theorem hasSubstr_lower_strip (q k : String)
    (h : hasSubstr (pyLower q) k = true)
    (hh : headNonWs k.data.head? = true)
    (hl : headNonWs k.data.reverse.head? = true) :
    hasSubstr (pyLower (pyStrip q)) k = true := by
  rw [pyLower_pyStrip]
  exact hasSub_strip_boundary (pyLower q).data k.data h hh hl

/-- `is_emergency` transfers from the raw query to the stripped query. -/
theorem is_emergency_strip (q : String) (h : is_emergency q = true) :
    is_emergency (pyStrip q) = true := by
  unfold is_emergency at h ⊢
  rw [List.any_eq_true] at h ⊢
  obtain ⟨k, hk, hsub⟩ := h
  refine ⟨k, hk, ?_⟩
  have hb : headNonWs k.data.head? = true ∧ headNonWs k.data.reverse.head? = true := by
    simp only [EMERGENCY_KEYWORDS, List.mem_cons, List.not_mem_nil, or_false] at hk
    rcases hk with rfl | rfl | rfl | rfl | rfl | rfl | rfl <;> exact ⟨by decide, by decide⟩
  exact hasSubstr_lower_strip q k hsub hb.1 hb.2

/-- Occurrence of "what" transfers from the raw query to the stripped
query. -/
theorem what_strip_pos (q : String)
    (h : hasSubstr (pyLower q) "what" = true) :
    hasSubstr (pyLower (pyStrip q)) "what" = true :=
  hasSubstr_lower_strip q "what" h (by decide) (by decide)

/-- Absence of "what" transfers from the raw query to the stripped
query. -/
theorem what_strip_neg (q : String)
    (h : hasSubstr (pyLower q) "what" = false) :
    hasSubstr (pyLower (pyStrip q)) "what" = false := by
  cases hb : hasSubstr (pyLower (pyStrip q)) "what" with
  | false => rfl
  | true =>
    exfalso
    rw [pyLower_pyStrip] at hb
    have h2 : hasSubstr (pyLower q) "what" = true :=
      hasSub_strip_mono (pyLower q).data "what".data hb
    rw [h] at h2
    exact Bool.false_ne_true h2

/-- Pushing a message onto one session leaves every other key's document
unchanged. -/
theorem lookup_push_ne (st : ChatDB) (oid k : String) (m : Message) (h : k ≠ oid) :
    lookupAL (pushMessage st oid m) k = lookupAL st k := by
  induction st with
  | nil => rfl
  | cons e t ih =>
    by_cases he : e.1 = oid
    · have hok : oid ≠ k := fun hok => h hok.symm
      simp [pushMessage, he, lookupAL, hok]
    · by_cases hek : e.1 = k
      · have hko : k ≠ oid := h
        simp [pushMessage, he, lookupAL, hek, hko]
      · simp [pushMessage, he, lookupAL, hek, ih]

/-- Pushing a message onto an existing session appends exactly that
message to its log and changes nothing else in the document. -/
theorem lookup_push_eq (st : ChatDB) (oid : String) (m : Message) (s : ChatSession)
    (h : lookupAL st oid = some s) :
    lookupAL (pushMessage st oid m) oid =
      some { s with messages := s.messages ++ [m] } := by
  induction st with
  | nil => simp [lookupAL] at h
  | cons e t ih =>
    by_cases he : e.1 = oid
    · rw [lookupAL, if_pos he] at h
      injection h with h2
      simp [pushMessage, he, lookupAL, h2]
    · rw [lookupAL, if_neg he] at h
      simp [pushMessage, he, lookupAL, ih h]

/-- A key that heads no document looks up to `none`. -/
theorem lookup_none_of_not_mem (st : ChatDB) (k : String)
    (h : k ∉ st.map Prod.fst) : lookupAL st k = none := by
  induction st with
  | nil => rfl
  | cons e t ih =>
    simp only [List.map_cons, List.mem_cons, not_or] at h
    obtain ⟨h1, h2⟩ := h
    have h1' : e.1 ≠ k := fun hk => h1 hk.symm
    simp [lookupAL, h1', ih h2]

/-- In a duplicate-free store, deleting a key makes it unlookupable. -/
theorem lookup_erase_self (st : ChatDB) (k : String)
    (hnd : (st.map Prod.fst).Nodup) : lookupAL (eraseFirst st k) k = none := by
  induction st with
  | nil => rfl
  | cons e t ih =>
    rw [List.map_cons, List.nodup_cons] at hnd
    obtain ⟨hmem, hnd'⟩ := hnd
    by_cases he : e.1 = k
    · simp only [eraseFirst, if_pos he]
      exact lookup_none_of_not_mem t k (he ▸ hmem)
    · simp [eraseFirst, he, lookupAL, ih hnd']

/-- When the supplied id is a sentinel or parses, `send_message` reaches
the pipeline on some resolved id and base store. -/
theorem send_message_resolved (o : Oracles) (fid : String) (now : Nat)
    (cid q : String) (st : ChatDB)
    (hres : cid = "" ∨ cid = "null" ∨ cid = "undefined" ∨ (objectIdParse cid).isSome = true) :
    ∃ oid st1, send_message o fid now cid q st = send_with_oid o oid (pyStrip q) st1 := by
  unfold send_message send_pipeline
  by_cases hs : cid = "" ∨ cid = "null" ∨ cid = "undefined"
  · rw [if_pos hs]
    exact ⟨fid, st ++ [(fid, newChatDoc now)], rfl⟩
  · rw [if_neg hs]
    have hsome : (objectIdParse cid).isSome = true := by
      rcases hres with h | h | h | h
      · exact absurd (Or.inl h) hs
      · exact absurd (Or.inr (Or.inl h)) hs
      · exact absurd (Or.inr (Or.inr h)) hs
      · exact h
    obtain ⟨oid, ho⟩ := Option.isSome_iff_exists.mp hsome
    rw [ho]
    exact ⟨oid, st, rfl⟩

/-- In the non-emergency branch, `answerFor` always starts by invoking the
retriever. -/
theorem answerFor_nonemergency (o : Oracles) (q : String)
    (h : (is_emergency q && !(hasSubstr (pyLower q) "what")) = false) :
    ∃ tl, (answerFor o q).2 = Event.retrieveCall q :: tl := by
  unfold answerFor
  rw [if_neg (by simp [h])]
  cases hr : o.retrieve q with
  | error e => exact ⟨[], rfl⟩
  | ok docs =>
    by_cases hc : pyStrip (String.intercalate "\n\n" (docs.map Doc.page_content)) = ""
    · cases hl : o.llm (LlmInput.rawPrompt ("Provide general educational information about: " ++ q)) with
      | ok content =>
        exact ⟨[Event.llmCall (LlmInput.rawPrompt ("Provide general educational information about: " ++ q))],
          by simp [hc, hl]⟩
      | error e =>
        exact ⟨[Event.llmCall (LlmInput.rawPrompt ("Provide general educational information about: " ++ q))],
          by simp [hc, hl]⟩
    · cases hl : o.llm (LlmInput.chatMessages systemInstruction
          (qaHumanMessage (String.intercalate "\n\n" (docs.map Doc.page_content)) q)) with
      | ok content =>
        exact ⟨[Event.llmCall (LlmInput.chatMessages systemInstruction
          (qaHumanMessage (String.intercalate "\n\n" (docs.map Doc.page_content)) q))],
          by simp [hc, hl]⟩
      | error e =>
        exact ⟨[Event.llmCall (LlmInput.chatMessages systemInstruction
          (qaHumanMessage (String.intercalate "\n\n" (docs.map Doc.page_content)) q))],
          by simp [hc, hl]⟩

/-- In the non-emergency branch, a failing external call makes the answer
the apology message. -/
theorem answerFor_failure (o : Oracles) (q : String)
    (h : (is_emergency q && !(hasSubstr (pyLower q) "what")) = false)
    (hfail : pipelineCallFails o q = true) :
    (answerFor o q).1 = APOLOGY_MESSAGE := by
  unfold answerFor
  unfold pipelineCallFails at hfail
  rw [if_neg (by simp [h])]
  cases hr : o.retrieve q with
  | error e => rfl
  | ok docs =>
    by_cases hc : pyStrip (String.intercalate "\n\n" (docs.map Doc.page_content)) = ""
    · cases hl : o.llm (LlmInput.rawPrompt ("Provide general educational information about: " ++ q)) with
      | ok content =>
        exfalso
        simp [hr, hc, hl] at hfail
      | error e => simp [hc, hl]
    · cases hl : o.llm (LlmInput.chatMessages systemInstruction
          (qaHumanMessage (String.intercalate "\n\n" (docs.map Doc.page_content)) q)) with
      | ok content =>
        exfalso
        simp [hr, hc, hl] at hfail
      | error e => simp [hc, hl]

/-- Behaviour of the pipeline tail on a resolved id: the store after the
request extends the base store by exactly one user message followed by one
assistant message on the target session, and nothing else. -/
theorem send_with_oid_spec (o : Oracles) (oid qq : String) (base : ChatDB)
    (ans : String) (st2 : ChatDB) (ev : List Event)
    (h : send_with_oid o oid qq base =
      { response := Except.ok ans, state := st2, events := ev }) :
    (∀ k, k ≠ oid → lookupAL st2 k = lookupAL base k) ∧
    (∀ s, lookupAL base oid = some s →
      lookupAL st2 oid = some { s with messages :=
        s.messages ++ [{ role := "user", text := qq },
                       { role := "assistant", text := ans }] }) := by
  unfold send_with_oid at h
  rw [SendOut.mk.injEq] at h
  obtain ⟨h1, h2, h3⟩ := h
  injection h1 with hans
  subst hans
  constructor
  · intro k hk
    rw [← h2, lookup_push_ne _ _ _ _ hk, lookup_push_ne _ _ _ _ hk]
  · intro s hsome
    rw [← h2]
    have hu := lookup_push_eq base oid { role := "user", text := qq } s hsome
    have ha := lookup_push_eq _ oid
      { role := "assistant", text := (answerFor o qq).1 } _ hu
    rw [ha]
    simp

/-- Claim C1: a query containing an emergency keyword (case-insensitive
substring) and not containing "what" makes `send` return the fixed
safety-referral message without invoking the retriever or the language
model (the external-call trace is empty). -/
theorem emergency_query_safety_no_external_calls
    (o : Oracles) (fid : String) (now : Nat) (cid q : String) (st : ChatDB)
    (hres : cid = "" ∨ cid = "null" ∨ cid = "undefined" ∨ (objectIdParse cid).isSome = true)
    (hem : is_emergency q = true)
    (hw : hasSubstr (pyLower q) "what" = false) :
    (send_message o fid now cid q st).response = Except.ok SAFETY_MESSAGE ∧
    (send_message o fid now cid q st).events = [] := by
  obtain ⟨oid, st1, hs⟩ := send_message_resolved o fid now cid q st hres
  rw [hs]
  have hem' := is_emergency_strip q hem
  have hw' := what_strip_neg q hw
  have hcond : (is_emergency (pyStrip q) && !(hasSubstr (pyLower (pyStrip q)) "what")) = true := by
    rw [hem', hw']
    rfl
  constructor <;> simp [send_with_oid, answerFor, hcond]

/-- Claim C2: a query containing "what" (case-insensitive) alongside an
emergency keyword bypasses the emergency branch: the pipeline proceeds to
the retrieval path, invoking the retriever on the stripped query. -/
theorem what_query_bypasses_emergency
    (o : Oracles) (fid : String) (now : Nat) (cid q : String) (st : ChatDB)
    (hres : cid = "" ∨ cid = "null" ∨ cid = "undefined" ∨ (objectIdParse cid).isSome = true)
    (hem : is_emergency q = true)
    (hw : hasSubstr (pyLower q) "what" = true) :
    ∃ tl, (send_message o fid now cid q st).events = Event.retrieveCall (pyStrip q) :: tl := by
  obtain ⟨oid, st1, hs⟩ := send_message_resolved o fid now cid q st hres
  rw [hs]
  have hw' := what_strip_pos q hw
  have hcond : (is_emergency (pyStrip q) && !(hasSubstr (pyLower (pyStrip q)) "what")) = false := by
    rw [hw']
    simp
  obtain ⟨tl, htl⟩ := answerFor_nonemergency o (pyStrip q) hcond
  exact ⟨tl, by simp [send_with_oid, htl]⟩

/-- Claim C3: every `send` call that reaches the pipeline appends exactly
one user message and then one assistant message to the addressed session's
log (when that session exists in the post-resolution store), leaving its
other fields and all other sessions unchanged. -/
theorem send_appends_one_user_then_one_assistant
    (o : Oracles) (fid : String) (now : Nat) (cid q : String) (st : ChatDB)
    (ans : String) (st2 : ChatDB) (ev : List Event)
    (h : send_message o fid now cid q st =
      { response := Except.ok ans, state := st2, events := ev }) :
    ∃ oid base,
      (((cid = "" ∨ cid = "null" ∨ cid = "undefined") ∧ oid = fid ∧
          base = st ++ [(fid, newChatDoc now)]) ∨
        (objectIdParse cid = some oid ∧ base = st)) ∧
      (∀ k, k ≠ oid → lookupAL st2 k = lookupAL base k) ∧
      (∀ s, lookupAL base oid = some s →
        lookupAL st2 oid = some { s with messages :=
          s.messages ++ [{ role := "user", text := pyStrip q },
                         { role := "assistant", text := ans }] }) := by
  unfold send_message send_pipeline at h
  by_cases hs : cid = "" ∨ cid = "null" ∨ cid = "undefined"
  · rw [if_pos hs] at h
    obtain ⟨hne, hsome⟩ :=
      send_with_oid_spec o fid (pyStrip q) (st ++ [(fid, newChatDoc now)]) ans st2 ev h
    exact ⟨fid, st ++ [(fid, newChatDoc now)], Or.inl ⟨hs, rfl, rfl⟩, hne, hsome⟩
  · rw [if_neg hs] at h
    cases hp : objectIdParse cid with
    | none =>
      rw [hp] at h
      simp at h
    | some oid =>
      rw [hp] at h
      obtain ⟨hne, hsome⟩ := send_with_oid_spec o oid (pyStrip q) st ans st2 ev h
      exact ⟨oid, st, Or.inr ⟨rfl, rfl⟩, hne, hsome⟩

/-- Claim C4: when the retrieval call or the (single) model call of the
non-emergency path raises, `send` still answers `200`-style with the fixed
apology message; the failure is never propagated as an error response. -/
theorem external_failure_yields_apology
    (o : Oracles) (fid : String) (now : Nat) (cid q : String) (st : ChatDB)
    (hres : cid = "" ∨ cid = "null" ∨ cid = "undefined" ∨ (objectIdParse cid).isSome = true)
    (hbranch : (is_emergency (pyStrip q) && !(hasSubstr (pyLower (pyStrip q)) "what")) = false)
    (hfail : pipelineCallFails o (pyStrip q) = true) :
    (send_message o fid now cid q st).response = Except.ok APOLOGY_MESSAGE := by
  obtain ⟨oid, st1, hs⟩ := send_message_resolved o fid now cid q st hres
  rw [hs]
  simp [send_with_oid, answerFor_failure o (pyStrip q) hbranch hfail]

/-- Claim C5: a non-sentinel chat id that fails to parse as an ObjectId
makes `send` return the 400 "Invalid chat ID" client error, leaving the
store untouched and invoking no external service. -/
theorem invalid_id_client_error_no_mutation
    (o : Oracles) (fid : String) (now : Nat) (cid q : String) (st : ChatDB)
    (h1 : ¬(cid = "" ∨ cid = "null" ∨ cid = "undefined"))
    (h2 : objectIdParse cid = none) :
    send_message o fid now cid q st =
      { response := Except.error (PyErr.httpException 400 "Invalid chat ID"),
        state := st, events := [] } := by
  unfold send_message send_pipeline
  rw [if_neg h1, h2]

/-- Claim C6: each sentinel id ("", "null", "undefined") makes `send`
create a fresh session (placeholder title, current timestamp, empty log)
and then behave exactly like a `send` addressed to that fresh session. -/
theorem sentinel_id_creates_fresh_session
    (o : Oracles) (fid : String) (now : Nat) (sid q : String) (st : ChatDB)
    (hs : sid = "" ∨ sid = "null" ∨ sid = "undefined")
    (hf : objectIdParse fid = some fid) :
    send_message o fid now sid q st =
      send_message o fid now fid q (st ++ [(fid, newChatDoc now)]) := by
  unfold send_message send_pipeline
  rw [if_pos hs]
  have hne : ¬(fid = "" ∨ fid = "null" ∨ fid = "undefined") := by
    rintro (rfl | rfl | rfl)
    · exact absurd hf (by decide)
    · exact absurd hf (by decide)
    · exact absurd hf (by decide)
  rw [if_neg hne, hf]

/-- Claim C7: on the non-emergency path, when retrieval succeeds and the
joined chunk text strips to empty, the model is invoked with the plain
fallback prompt (no system instruction, no context); when it strips
non-empty, the model is invoked with the structured system+context+question
prompt. -/
theorem empty_context_uses_fallback_prompt
    (o : Oracles) (fid : String) (now : Nat) (cid q : String) (st : ChatDB)
    (docs : List Doc)
    (hres : cid = "" ∨ cid = "null" ∨ cid = "undefined" ∨ (objectIdParse cid).isSome = true)
    (hbranch : (is_emergency (pyStrip q) && !(hasSubstr (pyLower (pyStrip q)) "what")) = false)
    (hret : o.retrieve (pyStrip q) = Except.ok docs) :
    (pyStrip (String.intercalate "\n\n" (docs.map Doc.page_content)) = "" →
      (send_message o fid now cid q st).events =
        [Event.retrieveCall (pyStrip q),
         Event.llmCall (LlmInput.rawPrompt
           ("Provide general educational information about: " ++ pyStrip q))]) ∧
    (pyStrip (String.intercalate "\n\n" (docs.map Doc.page_content)) ≠ "" →
      (send_message o fid now cid q st).events =
        [Event.retrieveCall (pyStrip q),
         Event.llmCall (LlmInput.chatMessages systemInstruction
           (qaHumanMessage (String.intercalate "\n\n" (docs.map Doc.page_content))
             (pyStrip q)))]) := by
  obtain ⟨oid, st1, hs⟩ := send_message_resolved o fid now cid q st hres
  rw [hs]
  constructor
  · intro hc
    cases hl : o.llm (LlmInput.rawPrompt
        ("Provide general educational information about: " ++ pyStrip q)) <;>
      simp [send_with_oid, answerFor, hbranch, hret, hc, hl]
  · intro hc
    cases hl : o.llm (LlmInput.chatMessages systemInstruction
        (qaHumanMessage (String.intercalate "\n\n" (docs.map Doc.page_content))
          (pyStrip q))) <;>
      simp [send_with_oid, answerFor, hbranch, hret, hc, hl]

/-- Claim C8 (refuted — code bug): on the get/update-title/delete handlers
a malformed chat id is NOT rejected with a client error: the unguarded
`ObjectId(chat_id)` raises `InvalidId`, which no handler catches, so
FastAPI returns a 500 server error (`PyErr.uncaught`), not the 400-class
client error the specification requires. -/
theorem malformed_id_uncaught_on_crud :
    get_chat "not-a-valid-id" [] = Except.error (PyErr.uncaught "InvalidId") ∧
    update_chat_title "not-a-valid-id" "x" [] = Except.error (PyErr.uncaught "InvalidId") ∧
    delete_chat "not-a-valid-id" [] = Except.error (PyErr.uncaught "InvalidId") :=
  ⟨rfl, rfl, rfl⟩

/-- Claim C9: deleting a session and then getting the same id fails: the
document is gone, so `find_one` returns `None` and `get` cannot return a
session (concretely the handler fails with the uncaught `TypeError` that
occurs whenever the id is absent from the store). -/
theorem delete_then_get_fails
    (cid oid : String) (st : ChatDB)
    (hp : objectIdParse cid = some oid)
    (hnd : (st.map Prod.fst).Nodup) :
    ∃ st1, delete_chat cid st = Except.ok ("deleted", st1) ∧
      get_chat cid st1 = Except.error (PyErr.uncaught "TypeError") := by
  refine ⟨eraseFirst st oid, ?_, ?_⟩
  · unfold delete_chat
    rw [hp]
  · unfold get_chat
    rw [hp]
    simp [lookup_erase_self st oid hnd]

/-- Claim C10: `send` strips the query before any other processing, so two
queries equal after stripping behave identically (same response, same
store, same external calls), and the behaviour on a query coincides with
running the pipeline on the stripped query. -/
theorem whitespace_variants_equivalent
    (o : Oracles) (fid : String) (now : Nat) (cid q1 q2 : String) (st : ChatDB)
    (h : pyStrip q1 = pyStrip q2) :
    send_message o fid now cid q1 st = send_message o fid now cid q2 st ∧
    send_message o fid now cid q1 st = send_pipeline o fid now cid (pyStrip q1) st := by
  unfold send_message
  rw [h]
  exact ⟨rfl, rfl⟩

/-- A stub retriever/model pair: retrieval returns no chunks, the model
answers a fixed string. -/
def stubOracles : Oracles :=
  { retrieve := fun _ => Except.ok [],
    llm := fun _ => Except.ok "general info" }

/-- A failing retriever/model pair: every external call raises. -/
def failOracles : Oracles :=
  { retrieve := fun _ => Except.error "boom",
    llm := fun _ => Except.error "boom" }

/-- A well-formed 24-hex-character object id. -/
def demoId : String := "0123456789abcdef01234567"

/-- A one-session store keyed by `demoId`. -/
def demoStore : ChatDB := [(demoId, { title := "T", created_at := 0, messages := [] })]

/-- Witness for C1 at a concrete emergency query. -/
theorem emergency_query_safety_no_external_calls_witness :
    (send_message stubOracles demoId 0 "null" " severe pain now " []).response =
        Except.ok SAFETY_MESSAGE ∧
    (send_message stubOracles demoId 0 "null" " severe pain now " []).events = [] :=
  emergency_query_safety_no_external_calls stubOracles demoId 0 "null"
    " severe pain now " [] (Or.inr (Or.inl rfl)) (by decide) (by decide)

/-- Witness for C2 at a concrete informational emergency query. -/
theorem what_query_bypasses_emergency_witness :
    ∃ tl, (send_message stubOracles demoId 0 "null" "What is a miscarriage?" []).events =
      Event.retrieveCall (pyStrip "What is a miscarriage?") :: tl :=
  what_query_bypasses_emergency stubOracles demoId 0 "null" "What is a miscarriage?" []
    (Or.inr (Or.inl rfl)) (by decide) (by decide)

/-- Witness for C3 at a concrete fresh-session send. -/
theorem send_appends_one_user_then_one_assistant_witness :
    ∃ oid base,
      ((("" = "" ∨ "" = "null" ∨ "" = "undefined") ∧ oid = demoId ∧
          base = [] ++ [(demoId, newChatDoc 0)]) ∨
        (objectIdParse "" = some oid ∧ base = [])) ∧
      (∀ k, k ≠ oid →
        lookupAL (send_message stubOracles demoId 0 "" "hi" []).state k = lookupAL base k) ∧
      (∀ s, lookupAL base oid = some s →
        lookupAL (send_message stubOracles demoId 0 "" "hi" []).state oid =
          some { s with messages :=
            s.messages ++ [{ role := "user", text := pyStrip "hi" },
                           { role := "assistant", text := "general info" }] }) :=
  send_appends_one_user_then_one_assistant stubOracles demoId 0 "" "hi" []
    "general info" (send_message stubOracles demoId 0 "" "hi" []).state
    (send_message stubOracles demoId 0 "" "hi" []).events (by decide)

/-- Witness for C4 with a failing retriever. -/
theorem external_failure_yields_apology_witness :
    (send_message failOracles demoId 0 demoId "hello" demoStore).response =
      Except.ok APOLOGY_MESSAGE :=
  external_failure_yields_apology failOracles demoId 0 demoId "hello" demoStore
    (Or.inr (Or.inr (Or.inr (by decide)))) (by decide) (by decide)

/-- Witness for C5 at a concrete malformed id. -/
theorem invalid_id_client_error_no_mutation_witness :
    send_message stubOracles demoId 0 "zzz" "hello" demoStore =
      { response := Except.error (PyErr.httpException 400 "Invalid chat ID"),
        state := demoStore, events := [] } :=
  invalid_id_client_error_no_mutation stubOracles demoId 0 "zzz" "hello" demoStore
    (by decide) (by decide)

/-- Witness for C6 at the sentinel id "null". -/
theorem sentinel_id_creates_fresh_session_witness :
    send_message stubOracles demoId 0 "null" "hi" [] =
      send_message stubOracles demoId 0 demoId "hi" ([] ++ [(demoId, newChatDoc 0)]) :=
  sentinel_id_creates_fresh_session stubOracles demoId 0 "null" "hi" []
    (Or.inr (Or.inl rfl)) (by decide)

/-- Witness for C7 with a retriever returning no chunks. -/
theorem empty_context_uses_fallback_prompt_witness :
    (pyStrip (String.intercalate "\n\n" (List.map Doc.page_content [])) = "" →
      (send_message stubOracles demoId 0 "null" "hi" []).events =
        [Event.retrieveCall (pyStrip "hi"),
         Event.llmCall (LlmInput.rawPrompt
           ("Provide general educational information about: " ++ pyStrip "hi"))]) ∧
    (pyStrip (String.intercalate "\n\n" (List.map Doc.page_content [])) ≠ "" →
      (send_message stubOracles demoId 0 "null" "hi" []).events =
        [Event.retrieveCall (pyStrip "hi"),
         Event.llmCall (LlmInput.chatMessages systemInstruction
           (qaHumanMessage (String.intercalate "\n\n" (List.map Doc.page_content []))
             (pyStrip "hi")))]) :=
  empty_context_uses_fallback_prompt stubOracles demoId 0 "null" "hi" [] []
    (Or.inr (Or.inl rfl)) (by decide) rfl

/-- Witness for C9 at a concrete store and id. -/
theorem delete_then_get_fails_witness :
    ∃ st1, delete_chat demoId demoStore = Except.ok ("deleted", st1) ∧
      get_chat demoId st1 = Except.error (PyErr.uncaught "TypeError") :=
  delete_then_get_fails demoId demoId demoStore (by decide) (by decide)

/-- Witness for C10 at two whitespace variants of one query. -/
theorem whitespace_variants_equivalent_witness :
    send_message stubOracles demoId 0 "null" "  hi " [] =
      send_message stubOracles demoId 0 "null" "hi" [] ∧
    send_message stubOracles demoId 0 "null" "  hi " [] =
      send_pipeline stubOracles demoId 0 "null" (pyStrip "  hi ") [] :=
  whitespace_variants_equivalent stubOracles demoId 0 "null" "  hi " "hi" [] (by decide)
